import Mathlib

set_option linter.unusedVariables false

/-!
Verification of the Infographic interactive-editing toolbar (the EditBar
plugin), the editor event bridge of the Infographic runtime, and the render
pipeline guard, as a shallow embedding of the TypeScript source.
-/

namespace Infographic

/-- Attribute values carried by elements and change records. The source
stores arbitrary JS values; the claims only exercise numbers and strings. -/
inductive AttrValue where
  | num (n : Int)
  | str (s : String)
deriving DecidableEq, Repr

/-- A JS attribute record, as an ordered association list. -/
abbrev Attrs := List (String × AttrValue)

/-- A selected element, as observed through the external probes
isEditableText, isIconElement and isGeometryElement and through the external
accessors getTextElementProps and getIconAttrs (all imported from utils
outside src, so their answers are carried on the element). The eid field
stands for JS reference identity. -/
structure Element where
  eid : Nat
  isEditableText : Bool
  isIconElement : Bool
  isGeometryElement : Bool
  textAttributes : Attrs := []
  iconAttributes : Attrs := []
deriving DecidableEq, Repr

/-- The SelectionType union of the source. -/
inductive SelectionType where
  | text
  | icon
  | geometry
  | mixed
deriving DecidableEq, Repr

/-- The three capability flags accumulated by the loop in getSelectionType. -/
structure CapFlags where
  hasText : Bool
  hasIcon : Bool
  hasGeometry : Bool
deriving DecidableEq, Repr

/-- One iteration of the probe loop body of getSelectionType: the
if / else-if chain over the three capability probes. -/
def probeStep (f : CapFlags) (item : Element) : CapFlags :=
  if item.isEditableText then { f with hasText := true }
  else if item.isIconElement then { f with hasIcon := true }
  else if item.isGeometryElement then { f with hasGeometry := true }
  else f

/-- The probe loop of getSelectionType, including the break taken once all
three flags have been observed. -/
def probeLoop : CapFlags → List Element → CapFlags
  | f, [] => f
  | f, item :: rest =>
    let f2 := probeStep f item
    if f2.hasText && f2.hasIcon && f2.hasGeometry then f2
    else probeLoop f2 rest

/-- getSelectionType from the EditBar plugin. -/
def getSelectionType (selection : List Element) : SelectionType :=
  let f := probeLoop ⟨false, false, false⟩ selection
  if f.hasText && !f.hasIcon && !f.hasGeometry then .text
  else if !f.hasText && f.hasIcon && !f.hasGeometry then .icon
  else if !f.hasText && !f.hasIcon && f.hasGeometry then .geometry
  else .mixed

/-- A structural capability, for stating what the probe chain observes. -/
inductive Cap where
  | text
  | icon
  | geometry
deriving DecidableEq, Repr

/-- The capability the probe chain of getSelectionType observes for one
element: the first of editable-text, icon, geometry that holds, if any. -/
def elementCap (e : Element) : Option Cap :=
  if e.isEditableText then some .text
  else if e.isIconElement then some .icon
  else if e.isGeometryElement then some .geometry
  else none

/-- Whether the probe observes capability c somewhere in the selection. -/
def capObserved (selection : List Element) (c : Cap) : Bool :=
  selection.any (fun e => elementCap e == some c)

theorem probeStep_eq (f : CapFlags) (e : Element) :
    probeStep f e =
      ⟨f.hasText || (elementCap e == some .text),
       f.hasIcon || (elementCap e == some .icon),
       f.hasGeometry || (elementCap e == some .geometry)⟩ := by
  unfold probeStep elementCap
  rcases f with ⟨a, b, c⟩
  by_cases h1 : e.isEditableText = true <;>
    by_cases h2 : e.isIconElement = true <;>
      by_cases h3 : e.isGeometryElement = true <;>
        simp_all

/-- The break in the probe loop never changes the flags computed: the loop
observes exactly the capabilities present in the list. -/
theorem probeLoop_eq (l : List Element) (f : CapFlags) :
    probeLoop f l =
      ⟨f.hasText || capObserved l .text,
       f.hasIcon || capObserved l .icon,
       f.hasGeometry || capObserved l .geometry⟩ := by
  induction l generalizing f with
  | nil => simp [probeLoop, capObserved]
  | cons e rest ih =>
    rcases f with ⟨a, b, c⟩
    rw [probeLoop]
    simp only [probeStep_eq]
    by_cases hbrk :
        ((a || (elementCap e == some .text)) &&
          ((b || (elementCap e == some .icon)) &&
            (c || (elementCap e == some .geometry)))) = true
    · simp only [Bool.and_assoc] at *
      rw [if_pos hbrk]
      simp only [Bool.and_eq_true] at hbrk
      obtain ⟨h1, h2, h3⟩ := hbrk
      simp [capObserved, List.any_cons, h1, h2, h3, ← Bool.or_assoc]
    · simp only [Bool.and_assoc] at *
      rw [if_neg hbrk, ih]
      simp [capObserved, List.any_cons, Bool.or_assoc]

/-- C2: getSelectionType classifies a selection as text, icon or geometry
exactly when that single capability is the only one observed by the probe
chain across the selected elements and as mixed otherwise; the probe loop
short-circuits (the break does not change the outcome) once all three flags
have been observed; a single editable-text element classifies as text, and
an editable-text element together with an icon element classifies as mixed. -/
theorem c2_getSelectionType_classification :
    (∀ sel : List Element,
      (getSelectionType sel = .text ↔
        (capObserved sel .text = true ∧ capObserved sel .icon = false ∧
         capObserved sel .geometry = false)) ∧
      (getSelectionType sel = .icon ↔
        (capObserved sel .text = false ∧ capObserved sel .icon = true ∧
         capObserved sel .geometry = false)) ∧
      (getSelectionType sel = .geometry ↔
        (capObserved sel .text = false ∧ capObserved sel .icon = false ∧
         capObserved sel .geometry = true)) ∧
      (getSelectionType sel = .mixed ↔
        ¬((capObserved sel .text = true ∧ capObserved sel .icon = false ∧
            capObserved sel .geometry = false) ∨
          (capObserved sel .text = false ∧ capObserved sel .icon = true ∧
            capObserved sel .geometry = false) ∨
          (capObserved sel .text = false ∧ capObserved sel .icon = false ∧
            capObserved sel .geometry = true))))
    ∧ (∀ (pre post : List Element) (f : CapFlags),
        (probeLoop f pre).hasText = true →
        (probeLoop f pre).hasIcon = true →
        (probeLoop f pre).hasGeometry = true →
        probeLoop f (pre ++ post) = probeLoop f pre)
    ∧ getSelectionType [⟨1, true, false, false, [], []⟩] = .text
    ∧ getSelectionType
        [⟨1, true, false, false, [], []⟩, ⟨2, false, true, false, [], []⟩] = .mixed := by
  refine ⟨?_, ?_, by decide, by decide⟩
  · intro sel
    have h := probeLoop_eq sel ⟨false, false, false⟩
    cases hT : capObserved sel .text <;>
      cases hI : capObserved sel .icon <;>
        cases hG : capObserved sel .geometry <;>
          simp [getSelectionType, h, hT, hI, hG]
  · intro pre post f h1 h2 h3
    rw [probeLoop_eq pre f] at h1 h2 h3
    dsimp only at h1 h2 h3
    have hany : ∀ c : Cap,
        capObserved (pre ++ post) c = (capObserved pre c || capObserved post c) := by
      intro c
      simp [capObserved, List.any_append]
    rw [probeLoop_eq (pre ++ post) f, probeLoop_eq pre f, hany, hany, hany]
    rw [← Bool.or_assoc, ← Bool.or_assoc, ← Bool.or_assoc, h1, h2, h3]
    simp

/-- A DOMRect-like box in a single coordinate space. -/
structure Rect where
  x : ℚ
  y : ℚ
  width : ℚ
  height : ℚ
deriving DecidableEq, Repr

/-- The geometric environment placeEditBar reads from the DOM: the combined
bounds of the selection in viewport coordinates (getCombinedBounds over the
client rects), the measured rect of the toolbar container, the document
viewport, the window scroll offsets, and the offset parent.
offsetParentIsViewport is true when container.offsetParent resolves to
document.body or document.documentElement. -/
structure PlaceEnv where
  combinedBounds : Rect
  containerWidth : ℚ
  containerHeight : ℚ
  viewportWidth : ℚ
  viewportHeight : ℚ
  scrollX : ℚ
  scrollY : ℚ
  offsetParentIsViewport : Bool
  parentRect : Rect
deriving DecidableEq, Repr

/-- Math.min(Math.max(value, lo), hi), the clamp of the source. -/
def clampQ (value lo hi : ℚ) : ℚ := min (max value lo) hi

/-- The left and top assigned to the container style, plus which side of
the selection was chosen. -/
structure Placement where
  left : ℚ
  top : ℚ
  placedAbove : Bool
deriving DecidableEq, Repr

/-- placeEditBar from the EditBar plugin, for a non-empty selection (the
handlers only invoke it then). offset is the fixed margin 8. -/
def placeEditBar (env : PlaceEnv) : Placement :=
  let offset : ℚ := 8
  let anchorTopX := env.combinedBounds.x + env.combinedBounds.width / 2
  let anchorTopY := env.combinedBounds.y
  let anchorBottomY := env.combinedBounds.y + env.combinedBounds.height
  let spaceAbove := anchorTopY - offset
  let spaceBelow := env.viewportHeight - anchorBottomY - offset
  let shouldPlaceAbove :=
    decide (spaceAbove ≥ env.containerHeight) || decide (spaceAbove ≥ spaceBelow)
  if env.offsetParentIsViewport then
    let left0 := env.scrollX + anchorTopX - env.containerWidth / 2
    let left := clampQ left0 env.scrollX
      (env.scrollX + max (env.viewportWidth - env.containerWidth) 0)
    let top0 :=
      if shouldPlaceAbove then env.scrollY + anchorTopY - env.containerHeight - offset
      else env.scrollY + anchorBottomY + offset
    let top := clampQ top0 env.scrollY
      (env.scrollY + max (env.viewportHeight - env.containerHeight) 0)
    ⟨left, top, shouldPlaceAbove⟩
  else
    let left0 := anchorTopX - env.parentRect.x - env.containerWidth / 2
    let left := clampQ left0 0 (max (env.parentRect.width - env.containerWidth) 0)
    let top0 :=
      if shouldPlaceAbove then anchorTopY - env.parentRect.y - env.containerHeight - offset
      else anchorBottomY - env.parentRect.y + offset
    let top := clampQ top0 0 (max (env.parentRect.height - env.containerHeight) 0)
    ⟨left, top, shouldPlaceAbove⟩

/-- The environment of the worked example of C1: selection bounds
x 100, y 50, width 40, height 20; toolbar 60 wide and 30 tall; viewport
200 tall and vw wide; no scroll; toolbar hosted on the viewport. -/
def c1ExampleEnv (vw : ℚ) : PlaceEnv :=
  { combinedBounds := ⟨100, 50, 40, 20⟩
    containerWidth := 60
    containerHeight := 30
    viewportWidth := vw
    viewportHeight := 200
    scrollX := 0
    scrollY := 0
    offsetParentIsViewport := true
    parentRect := ⟨0, 0, 0, 0⟩ }

/-- C1: placeEditBar chooses the above side iff spaceAbove (B.top minus the
margin 8) is at least the toolbar height or at least spaceBelow
(viewportHeight minus B.bottom minus the margin); the assigned position is
the anchor-derived coordinate (above: B.top - T.height - 8, below:
B.bottom + 8; horizontally B.centerX - T.width/2), clamped into the extent
of the hosting coordinate space (viewport with scroll offset, or the offset
parent's bounds); and on the worked example (B = 100,50,40,20, T = 60 by 30,
viewport height 200) the toolbar goes above at top 12 with left clamped into
the interval from 0 to viewportWidth - 60. -/
theorem c1_placeEditBar_spec :
    (∀ env : PlaceEnv,
      ((placeEditBar env).placedAbove = true ↔
        (env.combinedBounds.y - 8 ≥ env.containerHeight ∨
         env.combinedBounds.y - 8 ≥
           env.viewportHeight - (env.combinedBounds.y + env.combinedBounds.height) - 8)))
    ∧ (∀ env : PlaceEnv, env.offsetParentIsViewport = true →
        (placeEditBar env).left =
          clampQ (env.scrollX + (env.combinedBounds.x + env.combinedBounds.width / 2)
              - env.containerWidth / 2)
            env.scrollX
            (env.scrollX + max (env.viewportWidth - env.containerWidth) 0) ∧
        (placeEditBar env).top =
          clampQ (if (placeEditBar env).placedAbove then
              env.scrollY + env.combinedBounds.y - env.containerHeight - 8
            else
              env.scrollY + (env.combinedBounds.y + env.combinedBounds.height) + 8)
            env.scrollY
            (env.scrollY + max (env.viewportHeight - env.containerHeight) 0))
    ∧ (∀ env : PlaceEnv, env.offsetParentIsViewport = false →
        (placeEditBar env).left =
          clampQ ((env.combinedBounds.x + env.combinedBounds.width / 2)
              - env.parentRect.x - env.containerWidth / 2)
            0 (max (env.parentRect.width - env.containerWidth) 0) ∧
        (placeEditBar env).top =
          clampQ (if (placeEditBar env).placedAbove then
              env.combinedBounds.y - env.parentRect.y - env.containerHeight - 8
            else
              (env.combinedBounds.y + env.combinedBounds.height) - env.parentRect.y + 8)
            0 (max (env.parentRect.height - env.containerHeight) 0))
    ∧ (∀ vw : ℚ, 60 ≤ vw →
        (placeEditBar (c1ExampleEnv vw)).placedAbove = true ∧
        (placeEditBar (c1ExampleEnv vw)).top = 12 ∧
        0 ≤ (placeEditBar (c1ExampleEnv vw)).left ∧
        (placeEditBar (c1ExampleEnv vw)).left ≤ vw - 60) := by
  refine ⟨?_, ?_, ?_, ?_⟩
  · intro env
    unfold placeEditBar
    by_cases hv : env.offsetParentIsViewport = true <;>
      simp [hv, ge_iff_le, Bool.or_eq_true, decide_eq_true_eq]
  · intro env hv
    unfold placeEditBar
    simp [hv]
  · intro env hv
    unfold placeEditBar
    simp [hv]
  · intro vw hvw
    have h60 : (0:ℚ) ≤ vw - 60 := by linarith
    have hmax : max (vw - 60) (0:ℚ) = vw - 60 := max_eq_left h60
    unfold placeEditBar c1ExampleEnv
    norm_num [clampQ, hmax]
    linarith

/-- A variant of the worked example hosted inside a positioned ancestor
rather than the viewport. -/
def c1ExampleEnvParent : PlaceEnv :=
  { c1ExampleEnv 300 with
      offsetParentIsViewport := false
      parentRect := ⟨10, 5, 500, 400⟩ }

/-- Witness for C1: the characterization applied at the worked example
(viewport width 300) and at its positioned-ancestor variant, discharging
each branch hypothesis concretely. -/
theorem c1_placeEditBar_spec_witness :
    ((60:ℚ) ≤ 300 ∧
      (placeEditBar (c1ExampleEnv 300)).placedAbove = true ∧
      (placeEditBar (c1ExampleEnv 300)).top = 12 ∧
      0 ≤ (placeEditBar (c1ExampleEnv 300)).left ∧
      (placeEditBar (c1ExampleEnv 300)).left ≤ 300 - 60) ∧
    ((c1ExampleEnv 300).offsetParentIsViewport = true ∧
      (placeEditBar (c1ExampleEnv 300)).left =
        clampQ ((c1ExampleEnv 300).scrollX +
            ((c1ExampleEnv 300).combinedBounds.x +
              (c1ExampleEnv 300).combinedBounds.width / 2) -
            (c1ExampleEnv 300).containerWidth / 2)
          (c1ExampleEnv 300).scrollX
          ((c1ExampleEnv 300).scrollX +
            max ((c1ExampleEnv 300).viewportWidth -
              (c1ExampleEnv 300).containerWidth) 0)) ∧
    (c1ExampleEnvParent.offsetParentIsViewport = false ∧
      (placeEditBar c1ExampleEnvParent).left =
        clampQ ((c1ExampleEnvParent.combinedBounds.x +
              c1ExampleEnvParent.combinedBounds.width / 2) -
            c1ExampleEnvParent.parentRect.x -
            c1ExampleEnvParent.containerWidth / 2)
          0 (max (c1ExampleEnvParent.parentRect.width -
            c1ExampleEnvParent.containerWidth) 0)) :=
  ⟨⟨by norm_num, c1_placeEditBar_spec.2.2.2 300 (by norm_num)⟩,
   ⟨rfl, (c1_placeEditBar_spec.2.1 (c1ExampleEnv 300) rfl).1⟩,
   ⟨rfl, (c1_placeEditBar_spec.2.2.1 c1ExampleEnvParent rfl).1⟩⟩

/-- Modelled from the spec: getCommonAttrs is imported from utils outside
src; per the spec, in the merged result an attribute key is included only
if every record carries one identical value for it (the merge keeps an
entry of the first record exactly when all the other records agree on it). -/
def getCommonAttrs (records : List Attrs) : Attrs :=
  match records with
  | [] => []
  | r :: rest =>
    r.filter (fun p => rest.all (fun r2 => r2.lookup p.1 == some p.2))

/-- getTextElementProps(el).attributes with the JS fallback to an empty
record; the accessor itself lives outside src, so the element carries the
record it answers. -/
def textElementAttrs (e : Element) : Attrs := e.textAttributes

/-- getIconAttrs(el); the accessor lives outside src, so the element
carries the record it answers. -/
def getIconAttrs (e : Element) : Attrs := e.iconAttributes

/-- getSelectionAttributes from the EditBar plugin. -/
def getSelectionAttributes (selection : List Element) : Attrs :=
  match selection with
  | [] => []
  | first :: rest =>
    let selectionType := getSelectionType (first :: rest)
    if selectionType = .text then
      match rest with
      | [] => textElementAttrs first
      | _ => getCommonAttrs ((first :: rest).map textElementAttrs)
    else if selectionType = .icon then
      match rest with
      | [] => getIconAttrs first
      | _ => getCommonAttrs ((first :: rest).map getIconAttrs)
    else []

/-- The attribute record of an element that getSelectionAttributes reads
for a given single-capability classification: text properties for text,
icon attributes for icon, and nothing for geometry (the source reads no
attributes for geometry selections). -/
def elementAttrsFor (t : SelectionType) (e : Element) : Attrs :=
  match t with
  | .text => textElementAttrs e
  | .icon => getIconAttrs e
  | _ => []

theorem lookup_eq_none_of_not_mem_keys {l : Attrs} {k : String}
    (h : k ∉ l.map Prod.fst) : l.lookup k = none := by
  induction l with
  | nil => rfl
  | cons p tl ih =>
    simp only [List.map_cons, List.mem_cons, not_or] at h
    obtain ⟨h1, h2⟩ := h
    rw [List.lookup]
    have : (k == p.1) = false := by
      simp [h1]
    rw [this]
    exact ih h2

theorem lookup_filter_eq {l : Attrs} {pred : String × AttrValue → Bool}
    {k : String} {v : AttrValue} (hnd : (l.map Prod.fst).Nodup) :
    ((l.filter pred).lookup k = some v ↔
      (l.lookup k = some v ∧ pred (k, v) = true)) := by
  induction l with
  | nil => simp
  | cons p tl ih =>
    obtain ⟨k1, v1⟩ := p
    simp only [List.map_cons, List.nodup_cons] at hnd
    obtain ⟨hk1, hnd2⟩ := hnd
    by_cases hk : k = k1
    · subst hk
      by_cases hp : pred (k, v1) = true
      · rw [List.filter_cons_of_pos hp]
        rw [List.lookup, List.lookup]
        simp only [beq_self_eq_true]
        constructor
        · intro hv
          obtain rfl : v1 = v := by
            simpa using hv
          exact ⟨rfl, hp⟩
        · intro ⟨hv, _⟩
          obtain rfl : v1 = v := by
            simpa using hv
          rfl
      · rw [List.filter_cons_of_neg hp]
        have hnone : (tl.filter pred).lookup k = none := by
          apply lookup_eq_none_of_not_mem_keys
          intro hmem
          apply hk1
          have hsub : (tl.filter pred).map Prod.fst ⊆ tl.map Prod.fst := by
            intro a ha
            simp only [List.mem_map] at ha ⊢
            obtain ⟨q, hq, rfl⟩ := ha
            exact ⟨q, List.mem_of_mem_filter hq, rfl⟩
          exact hsub hmem
        rw [hnone]
        rw [List.lookup]
        simp only [beq_self_eq_true]
        constructor
        · intro h
          cases h
        · intro ⟨hv, hpkv⟩
          obtain rfl : v1 = v := by
            simpa using hv
          exact absurd hpkv hp
    · have hbeq : (k == k1) = false := by
        simp [hk]
      by_cases hp : pred (k1, v1) = true
      · rw [List.filter_cons_of_pos hp, List.lookup, List.lookup, hbeq]
        exact ih hnd2
      · rw [List.filter_cons_of_neg hp, List.lookup, hbeq]
        exact ih hnd2

/-- lookup into getCommonAttrs of a non-empty record list: a key maps to v
in the merge exactly when it maps to v in every record. -/
theorem lookup_getCommonAttrs {r : Attrs} {rs : List Attrs} {k : String}
    {v : AttrValue} (hnd : (r.map Prod.fst).Nodup) :
    ((getCommonAttrs (r :: rs)).lookup k = some v ↔
      (r.lookup k = some v ∧ ∀ r2 ∈ rs, r2.lookup k = some v)) := by
  unfold getCommonAttrs
  rw [lookup_filter_eq hnd]
  constructor
  · intro ⟨h1, h2⟩
    refine ⟨h1, ?_⟩
    intro r2 hr2
    have := List.all_eq_true.mp h2 r2 hr2
    simpa using this
  · intro ⟨h1, h2⟩
    refine ⟨h1, ?_⟩
    apply List.all_eq_true.mpr
    intro r2 hr2
    simpa using h2 r2 hr2

/-- C3: for a multi-element selection classified as a single capability
type, a key maps to a value in the merged attributes handed to toolbar
items exactly when every selected element carries that identical value for
the key (in the record the merge reads for that classification); in
particular two text elements with font sizes 14 and 16 merge to a record
without font-size, while a color shared as #000 is kept. -/
theorem c3_merged_attributes :
    (∀ (sel : List Element) (t : SelectionType),
      2 ≤ sel.length → getSelectionType sel = t → t ≠ .mixed →
      (∀ e ∈ sel, ((elementAttrsFor t e).map Prod.fst).Nodup) →
      ∀ (k : String) (v : AttrValue),
        ((getSelectionAttributes sel).lookup k = some v ↔
          ∀ e ∈ sel, (elementAttrsFor t e).lookup k = some v))
    ∧ getSelectionAttributes
        [⟨1, true, false, false, [("font-size", .num 14), ("color", .str "#000")], []⟩,
         ⟨2, true, false, false, [("font-size", .num 16), ("color", .str "#000")], []⟩]
      = [("color", .str "#000")]
    ∧ (getSelectionAttributes
        [⟨1, true, false, false, [("font-size", .num 14), ("color", .str "#000")], []⟩,
         ⟨2, true, false, false, [("font-size", .num 16), ("color", .str "#000")], []⟩]).lookup
        "font-size" = none := by
  refine ⟨?_, by decide, by decide⟩
  rintro sel t hlen htype hmix hnd k v
  match sel, hlen with
  | a :: b :: rest, _ =>
    cases t with
    | mixed => exact absurd rfl hmix
    | text =>
      have hred : getSelectionAttributes (a :: b :: rest) =
          getCommonAttrs ((a :: b :: rest).map textElementAttrs) := by
        simp [getSelectionAttributes, htype]
      rw [hred, List.map_cons]
      have hnda : ((textElementAttrs a).map Prod.fst).Nodup := by
        have := hnd a (by simp)
        simpa [elementAttrsFor] using this
      rw [lookup_getCommonAttrs hnda]
      simp only [elementAttrsFor]
      constructor
      · rintro ⟨h1, h2⟩ e he
        rcases List.mem_cons.mp he with rfl | he2
        · exact h1
        · exact h2 (textElementAttrs e) (List.mem_map_of_mem _ he2)
      · intro h
        refine ⟨h a (by simp), ?_⟩
        intro r2 hr2
        rw [List.mem_map] at hr2
        obtain ⟨e, he, rfl⟩ := hr2
        exact h e (List.mem_cons_of_mem _ he)
    | icon =>
      have hred : getSelectionAttributes (a :: b :: rest) =
          getCommonAttrs ((a :: b :: rest).map getIconAttrs) := by
        simp [getSelectionAttributes, htype]
      rw [hred, List.map_cons]
      have hnda : ((getIconAttrs a).map Prod.fst).Nodup := by
        have := hnd a (by simp)
        simpa [elementAttrsFor] using this
      rw [lookup_getCommonAttrs hnda]
      simp only [elementAttrsFor]
      constructor
      · rintro ⟨h1, h2⟩ e he
        rcases List.mem_cons.mp he with rfl | he2
        · exact h1
        · exact h2 (getIconAttrs e) (List.mem_map_of_mem _ he2)
      · intro h
        refine ⟨h a (by simp), ?_⟩
        intro r2 hr2
        rw [List.mem_map] at hr2
        obtain ⟨e, he, rfl⟩ := hr2
        exact h e (List.mem_cons_of_mem _ he)
    | geometry =>
      have hred : getSelectionAttributes (a :: b :: rest) = [] := by
        simp [getSelectionAttributes, htype]
      rw [hred]
      constructor
      · intro h
        cases h
      · intro h
        have := h a (by simp)
        simp [elementAttrsFor] at this

/-- Witness for C3: the merged-attribute characterization applied to the
two-text-element example, all hypotheses discharged concretely. -/
theorem c3_merged_attributes_witness :
    2 ≤ ([⟨1, true, false, false, [("font-size", .num 14), ("color", .str "#000")], []⟩,
          ⟨2, true, false, false, [("font-size", .num 16), ("color", .str "#000")], []⟩]
         : List Element).length ∧
    getSelectionType
      [⟨1, true, false, false, [("font-size", .num 14), ("color", .str "#000")], []⟩,
       ⟨2, true, false, false, [("font-size", .num 16), ("color", .str "#000")], []⟩]
      = .text ∧
    ((getSelectionAttributes
        [⟨1, true, false, false, [("font-size", .num 14), ("color", .str "#000")], []⟩,
         ⟨2, true, false, false, [("font-size", .num 16), ("color", .str "#000")], []⟩]).lookup
        "color" = some (.str "#000") ↔
      ∀ e ∈ ([⟨1, true, false, false, [("font-size", .num 14), ("color", .str "#000")], []⟩,
              ⟨2, true, false, false, [("font-size", .num 16), ("color", .str "#000")], []⟩]
             : List Element),
        (elementAttrsFor .text e).lookup "color" = some (.str "#000")) :=
  ⟨by decide, by decide,
   c3_merged_attributes.1
     [⟨1, true, false, false, [("font-size", .num 14), ("color", .str "#000")], []⟩,
      ⟨2, true, false, false, [("font-size", .num 16), ("color", .str "#000")], []⟩]
     .text (by decide) (by decide) (by decide) (by decide) "color" (.str "#000")⟩

/-- A toolbar item (an HTMLElement in the source). Default items record
which factory from edit-items produced them and with what arguments; a
widget item is an arbitrary element produced by user code, whose
hasCleanup flag models the presence of the React adapter's cleanup hook
on the element. -/
inductive EditItem where
  | fontColor (sel : List Element) (attrs : Attrs)
  | fontSize (sel : List Element) (attrs : Attrs)
  | fontAlign (sel : List Element) (attrs : Attrs)
  | fontFamily (sel : List Element) (attrs : Attrs)
  | iconColor (sel : List Element) (attrs : Attrs)
  | elementAlign (sel : List Element) (enableDistribution : Bool)
  | widget (wid : Nat) (hasCleanup : Bool)
deriving DecidableEq, Repr

/-- The context handed to custom edit bar items and renderers. The
commander, state and command-helper fields are opaque external handles the
toolbar logic itself never reads, so the model keeps the two informative
fields. -/
structure EditBarContext where
  selection : List Element
  attributes : Attrs
deriving DecidableEq, Repr

/-- A factory for a custom edit bar item, returning none to skip it. -/
abbrev CustomEditItem := EditBarContext → Option EditItem

/-- A full custom renderer, returning none to hide the bar. -/
abbrev EditBarRenderer := EditBarContext → Option EditItem

/-- The items field of EditBarOptions. -/
structure EditBarItemConfig where
  text : Option (List CustomEditItem) := none
  icon : Option (List CustomEditItem) := none
  geometry : Option (List CustomEditItem) := none
  mixed : Option (List CustomEditItem) := none
  prepend : Option (List CustomEditItem) := none
  append : Option (List CustomEditItem) := none

/-- EditBarOptions: the configuration surface of the plugin (style,
className and getContainer only affect DOM cosmetics and are omitted).
includeDefaults is optional, defaulting to true at the use site exactly as
the destructuring default of the source does. -/
structure EditBarOptions where
  render : Option EditBarRenderer := none
  items : Option EditBarItemConfig := none
  includeDefaults : Option Bool := none
  filter : Option (List Element → Bool) := none

/-- renderCustomItems: run each factory and keep the non-null results. -/
def renderCustomItems (factories : List CustomEditItem)
    (context : EditBarContext) : List EditItem :=
  (factories.map (fun factory => factory context)).filterMap id

/-- buildContext from the EditBar plugin. -/
def buildContext (selection : List Element) : EditBarContext :=
  { selection := selection, attributes := getSelectionAttributes selection }

/-- getTextEditItems: the four font item factories applied to a single
text element. -/
def getTextEditItems (text : Element) : List EditItem :=
  let attributes := textElementAttrs text
  [.fontColor [text] attributes, .fontSize [text] attributes,
   .fontAlign [text] attributes, .fontFamily [text] attributes]

/-- getElementCollectionEditItems: alignment controls, only for 2 or more
elements, with distribution enabled above 2. -/
def getElementCollectionEditItems (selection : List Element) : List EditItem :=
  if selection.length ≤ 1 then []
  else [.elementAlign selection (decide (selection.length > 2))]

/-- getTextCollectionEditItems: the four font factories on the common
attributes, then the collection alignment items. -/
def getTextCollectionEditItems (selection : List Element) : List EditItem :=
  let attrs := getCommonAttrs (selection.map textElementAttrs)
  let items : List EditItem :=
    [.fontColor selection attrs, .fontSize selection attrs,
     .fontAlign selection attrs, .fontFamily selection attrs]
  items ++ getElementCollectionEditItems selection

/-- The icon attributes of selection[0]; the handlers only reach this with
a non-empty selection. -/
def firstIconAttrs (selection : List Element) : Attrs :=
  match selection with
  | [] => []
  | e :: _ => getIconAttrs e

/-- getIconEditItems: one icon color factory on the first element's icon
attributes. -/
def getIconEditItems (selection : List Element) : List EditItem :=
  [.iconColor selection (firstIconAttrs selection)]

/-- getIconCollectionEditItems: one icon color factory on the common icon
attributes. -/
def getIconCollectionEditItems (selection : List Element) : List EditItem :=
  [.iconColor selection (getCommonAttrs (selection.map getIconAttrs))]

/-- getGeometryEditItems: none. -/
def getGeometryEditItems (_selection : List Element) : List EditItem := []

/-- getGeometryCollectionEditItems: just the collection alignment items. -/
def getGeometryCollectionEditItems (selection : List Element) : List EditItem :=
  getElementCollectionEditItems selection

/-- getDefaultItems from the EditBar plugin: switch on the selection type,
distinguishing single-element selections. -/
def getDefaultItems (selection : List Element)
    (selectionType : SelectionType) : List EditItem :=
  match selectionType with
  | .text =>
    match selection with
    | [single] => getTextEditItems single
    | _ => getTextCollectionEditItems selection
  | .icon =>
    match selection with
    | [_] => getIconEditItems selection
    | _ => getIconCollectionEditItems selection
  | .geometry =>
    match selection with
    | [_] => getGeometryEditItems selection
    | _ => getGeometryCollectionEditItems selection
  | .mixed => getElementCollectionEditItems selection

/-- The type-indexed lookup itemConfig[selectionType] of the source. -/
def configItemsFor (c : EditBarItemConfig) : SelectionType → Option (List CustomEditItem)
  | .text => c.text
  | .icon => c.icon
  | .geometry => c.geometry
  | .mixed => c.mixed

/-- One optional stage of custom items: render the factories when the
config slot is present, contribute nothing when it is absent. -/
def optStageItems (slot : Option (List CustomEditItem))
    (context : EditBarContext) : List EditItem :=
  match slot with
  | some factories => renderCustomItems factories context
  | none => []

/-- items.filter(Boolean) of the source; every EditItem denotes an
HTMLElement, which is truthy, so nothing is dropped. -/
def filterTruthy (items : List EditItem) : List EditItem :=
  items.filter (fun _ => true)

/-- getEditItems from the EditBar plugin: the staged item accumulation. -/
def getEditItems (o : EditBarOptions) (selection : List Element)
    (context : Option EditBarContext) : List EditItem :=
  let itemConfig := o.items
  let includeDefaults := o.includeDefaults.getD true
  let selectionType := getSelectionType selection
  let ctx :=
    match context with
    | some c => c
    | none => buildContext selection
  let items0 : List EditItem := []
  let items1 := items0 ++ optStageItems (itemConfig.bind (fun c => c.prepend)) ctx
  let items2 := items1 ++
    (if includeDefaults then getDefaultItems selection selectionType else [])
  let items3 := items2 ++
    optStageItems (itemConfig.bind (fun c => configItemsFor c selectionType)) ctx
  let items4 := items3 ++ optStageItems (itemConfig.bind (fun c => c.append)) ctx
  filterTruthy items4

/-- The toolbar container DOM node: its visibility style and its attached
children. A freshly created container starts hidden and empty. -/
structure ContainerState where
  visible : Bool
  children : List EditItem
deriving DecidableEq, Repr

/-- The mutable state of the EditBar plugin instance: the tracked
selection and the lazily created container. -/
structure BarState where
  selection : List Element
  container : Option ContainerState
deriving Repr

/-- Observable side effects of the handlers, in execution order: container
creation, unmounting of a React root (the widget's stored cleanup hook
running), replacement of the attached children (setContainerItems),
placement, visibility changes, listener unsubscription, and removal of the
container node (with the children attached at that moment). -/
inductive BarAction where
  | createContainer
  | unmount (wid : Nat)
  | attach (items : List EditItem)
  | place
  | hide
  | show
  | offListener (event : String) (listenerId : Nat)
  | removeContainer (children : List EditItem)
deriving DecidableEq, Repr

/-- cleanupReactEditBar on one child: run and delete the stored cleanup
hook when present, leave other elements alone. -/
def cleanupReactEditBar (item : EditItem) : EditItem × List BarAction :=
  match item with
  | .widget wid true => (.widget wid false, [.unmount wid])
  | other => (other, [])

/-- cleanupContainerItems: run cleanupReactEditBar over every child of the
container. -/
def cleanupContainerItems (children : List EditItem) :
    List EditItem × List BarAction :=
  match children with
  | [] => ([], [])
  | c :: rest =>
    let r1 := cleanupReactEditBar c
    let r2 := cleanupContainerItems rest
    (r1.1 :: r2.1, r1.2 ++ r2.2)

/-- getOrCreateEditBar: reuse the container, or create it hidden and
empty and append it to its parent. -/
def getOrCreateEditBar (st : BarState) : BarState × List BarAction :=
  match st.container with
  | some _ => (st, [])
  | none => ({ st with container := some ⟨false, []⟩ }, [.createContainer])

/-- hideContainer applied when a container exists (the handlers guard the
call with this.container). -/
def hideIfContainer (st : BarState) : BarState × List BarAction :=
  match st.container with
  | some c => ({ st with container := some { c with visible := false } }, [.hide])
  | none => (st, [])

/-- Whether the filter option is present and rejects the selection. -/
def filterRejects (o : EditBarOptions) (next : List Element) : Bool :=
  match o.filter with
  | some f => !(f next)
  | none => false

/-- handleSelectionChanged from the EditBar plugin, as a transition on the
plugin state that also reports the DOM side effects in order. -/
def handleSelectionChanged (o : EditBarOptions) (st : BarState)
    (next : List Element) : BarState × List BarAction :=
  let st := { st with selection := next }
  if filterRejects o next then hideIfContainer st
  else if next.length = 0 then hideIfContainer st
  else
    let context := buildContext next
    match o.render with
    | some render =>
      match render context with
      | none => hideIfContainer st
      | some customContent =>
        let r1 := getOrCreateEditBar st
        match r1.1.container with
        | none => r1
        | some c =>
          let r2 := cleanupContainerItems c.children
          let newChildren := [customContent]
          ({ r1.1 with container := some ⟨true, newChildren⟩ },
            r1.2 ++ r2.2 ++ [.attach newChildren, .place, .show])
    | none =>
      let r1 := getOrCreateEditBar st
      let items := getEditItems o next (some context)
      if items.length = 0 then
        let r2 := hideIfContainer r1.1
        (r2.1, r1.2 ++ r2.2)
      else
        match r1.1.container with
        | none => r1
        | some c =>
          let r2 := cleanupContainerItems c.children
          ({ r1.1 with container := some ⟨true, items⟩ },
            r1.2 ++ r2.2 ++ [.attach items, .place, .show])

/-- handleGeometryChanged from the EditBar plugin: re-place and show when
the target is in the tracked selection and the container exists. -/
def handleGeometryChanged (o : EditBarOptions) (st : BarState)
    (target : Element) : BarState × List BarAction :=
  match st.container with
  | none => (st, [])
  | some c =>
    if st.selection.contains target then
      ({ st with container := some { c with visible := true } }, [.place, .show])
    else (st, [])

/-- handleHistoryChanged from the EditBar plugin: re-place and show when a
container exists and the selection is non-empty. -/
def handleHistoryChanged (o : EditBarOptions) (st : BarState) :
    BarState × List BarAction :=
  match st.container with
  | none => (st, [])
  | some c =>
    if st.selection.length = 0 then (st, [])
    else ({ st with container := some { c with visible := true } }, [.place, .show])

/-- The three bus events the plugin subscribes to. -/
inductive BarEvent where
  | selChange (next : List Element)
  | geomChange (target : Element)
  | histChange
deriving Repr

/-- One event dispatch of the plugin. -/
def stepBar (o : EditBarOptions) (st : BarState) :
    BarEvent → BarState × List BarAction
  | .selChange next => handleSelectionChanged o st next
  | .geomChange target => handleGeometryChanged o st target
  | .histChange => handleHistoryChanged o st

/-- Run a sequence of bus events from a state. -/
def runBar (o : EditBarOptions) (st : BarState) : List BarEvent → BarState
  | [] => st
  | ev :: rest => runBar o (stepBar o st ev).1 rest

/-- State of a freshly initialised plugin: empty selection, no container. -/
def initialBarState : BarState := ⟨[], none⟩

/-- Whether the toolbar is visible: a container exists and its visibility
style is visible. -/
def barVisible (st : BarState) : Bool :=
  match st.container with
  | some c => c.visible
  | none => false

/-- items.filter(Boolean) drops nothing, since every item is an element. -/
theorem filterTruthy_eq (l : List EditItem) : filterTruthy l = l := by
  simp [filterTruthy]

/-- C4: without a full custom renderer the resolved item list is exactly
prepended custom items, then default items for the classified type (the
whole stage dropped when includeDefaults is false), then the type-specific
custom items, then the appended custom items; and with a full custom
renderer supplied, item resolution is bypassed (the transition does not
depend on the items config or the defaults flag) and the renderer's result
alone decides what is shown: none hides the toolbar, some content shows
exactly that content. -/
theorem c4_item_resolution :
    (∀ (o : EditBarOptions) (selection : List Element) (ctx : EditBarContext),
      getEditItems o selection (some ctx) =
        optStageItems (o.items.bind (fun c => c.prepend)) ctx
        ++ (if o.includeDefaults.getD true then
              getDefaultItems selection (getSelectionType selection) else [])
        ++ optStageItems (o.items.bind (fun c =>
              configItemsFor c (getSelectionType selection))) ctx
        ++ optStageItems (o.items.bind (fun c => c.append)) ctx)
    ∧ (∀ (o : EditBarOptions) (r : EditBarRenderer) (st : BarState)
        (next : List Element) (i2 : Option EditBarItemConfig) (b2 : Option Bool),
        o.render = some r →
        handleSelectionChanged { o with items := i2, includeDefaults := b2 } st next
          = handleSelectionChanged o st next)
    ∧ (∀ (o : EditBarOptions) (r : EditBarRenderer) (st : BarState)
        (next : List Element),
        o.render = some r → filterRejects o next = false → next ≠ [] →
        r (buildContext next) = none →
        barVisible (handleSelectionChanged o st next).1 = false)
    ∧ (∀ (o : EditBarOptions) (r : EditBarRenderer) (st : BarState)
        (next : List Element) (content : EditItem),
        o.render = some r → filterRejects o next = false → next ≠ [] →
        r (buildContext next) = some content →
        (handleSelectionChanged o st next).1.container = some ⟨true, [content]⟩) := by
  refine ⟨?_, ?_, ?_, ?_⟩
  · intro o selection ctx
    simp [getEditItems, filterTruthy_eq, List.append_assoc]
  · intro o r st next i2 b2 hr
    cases o
    cases hr
    rfl
  · intro o r st next hr hf hne hrc
    have hlen : ¬(next.length = 0) := by
      simpa using hne
    unfold handleSelectionChanged
    rw [hf, hr]
    simp only [if_false, Bool.false_eq_true, hlen, if_neg, hrc]
    cases hst : st.container <;> simp [hideIfContainer, barVisible, hst, hlen]
  · intro o r st next content hr hf hne hrc
    have hlen : ¬(next.length = 0) := by
      simpa using hne
    unfold handleSelectionChanged
    rw [hf, hr]
    simp only [Bool.false_eq_true, if_false, hlen, if_neg, hrc]
    cases hst : st.container <;>
      simp [getOrCreateEditBar, hst, hlen]

/-- Witness for C4: the bypass and renderer-decides conclusions applied at
a concrete configuration, all hypotheses discharged concretely. -/
theorem c4_item_resolution_witness :
    (handleSelectionChanged
        { render := some (fun _ => some (.widget 5 false)),
          items := some { prepend := some [fun _ => some (.widget 9 false)] },
          includeDefaults := some false, filter := none }
        initialBarState [⟨1, true, false, false, [], []⟩]
      = handleSelectionChanged
          { render := some (fun _ => some (.widget 5 false)) }
          initialBarState [⟨1, true, false, false, [], []⟩]) ∧
    (handleSelectionChanged
        { render := some (fun _ => some (.widget 5 false)) }
        initialBarState [⟨1, true, false, false, [], []⟩]).1.container
      = some ⟨true, [.widget 5 false]⟩ ∧
    barVisible (handleSelectionChanged
        { render := some (fun _ => none) }
        initialBarState [⟨1, true, false, false, [], []⟩]).1 = false :=
  ⟨c4_item_resolution.2.1
      { render := some (fun _ => some (.widget 5 false)) }
      (fun _ => some (.widget 5 false)) initialBarState
      [⟨1, true, false, false, [], []⟩]
      (some { prepend := some [fun _ => some (.widget 9 false)] }) (some false) rfl,
   c4_item_resolution.2.2.2
      { render := some (fun _ => some (.widget 5 false)) }
      (fun _ => some (.widget 5 false)) initialBarState
      [⟨1, true, false, false, [], []⟩] (.widget 5 false)
      rfl rfl (by simp) rfl,
   c4_item_resolution.2.2.1
      { render := some (fun _ => none) }
      (fun _ => none) initialBarState
      [⟨1, true, false, false, [], []⟩]
      rfl rfl (by simp) rfl⟩

/-- Counterexample to C5 as stated: after selecting a lone geometry
element (whose item resolution yields zero items, leaving the container
hidden), a selection:geometrychange for that element re-shows the
container, so the toolbar is visible although the last render yielded no
items and no content is attached; likewise, after the filter rejects the
new selection (hiding the bar), a geometrychange for a selected element
re-shows it although the filter rejects the current selection. -/
theorem c5_visibility_counterexample :
    (barVisible (runBar {} initialBarState
        [.selChange [⟨1, false, false, true, [], []⟩],
         .geomChange ⟨1, false, false, true, [], []⟩]) = true ∧
      (runBar {} initialBarState
        [.selChange [⟨1, false, false, true, [], []⟩],
         .geomChange ⟨1, false, false, true, [], []⟩]).container = some ⟨true, []⟩ ∧
      getEditItems {} [⟨1, false, false, true, [], []⟩]
        (some (buildContext [⟨1, false, false, true, [], []⟩])) = []) ∧
    (barVisible (runBar
        { filter := some (fun sel => sel.all (fun e => e.eid == 1)) }
        initialBarState
        [.selChange [⟨1, true, false, false, [], []⟩],
         .selChange [⟨2, true, false, false, [], []⟩],
         .geomChange ⟨2, true, false, false, [], []⟩]) = true ∧
      filterRejects
        { filter := some (fun sel => sel.all (fun e => e.eid == 1)) }
        (runBar
          { filter := some (fun sel => sel.all (fun e => e.eid == 1)) }
          initialBarState
          [.selChange [⟨1, true, false, false, [], []⟩],
           .selChange [⟨2, true, false, false, [], []⟩],
           .geomChange ⟨2, true, false, false, [], []⟩]).selection = true) :=
  ⟨⟨by decide, by decide, by decide⟩, ⟨by decide, by decide⟩⟩

/-- C5 amended: after a selection:change event the toolbar is visible
exactly when the next selection is non-empty, the filter (when present)
accepts it, and the render yields non-null custom content or at least one
item — in particular every selection:change with an empty selection, a
rejecting filter, or null custom content leaves it hidden; however, a
selection:geometrychange whose target is in the tracked selection, and any
history:change with a non-empty tracked selection, re-show an existing
container unconditionally, so the visibility invariant holds only up to the
last selection:change, not over arbitrary event sequences. -/
theorem c5_visibility_amended :
    (∀ (o : EditBarOptions) (st : BarState) (next : List Element),
      barVisible (handleSelectionChanged o st next).1 = true ↔
        (next ≠ [] ∧ filterRejects o next = false ∧
          (match o.render with
           | some r => (r (buildContext next)).isSome = true
           | none => getEditItems o next (some (buildContext next)) ≠ [])))
    ∧ (∀ (o : EditBarOptions) (st : BarState) (target : Element) (c : ContainerState),
        st.container = some c → st.selection.contains target = true →
        barVisible (handleGeometryChanged o st target).1 = true)
    ∧ (∀ (o : EditBarOptions) (st : BarState) (c : ContainerState),
        st.container = some c → st.selection ≠ [] →
        barVisible (handleHistoryChanged o st).1 = true) := by
  refine ⟨?_, ?_, ?_⟩
  · intro o st next
    unfold handleSelectionChanged
    by_cases hf : filterRejects o next = true
    · simp only [hf, if_true]
      cases hst : st.container <;>
        simp [hideIfContainer, barVisible, hst, hf]
    · rw [Bool.not_eq_true] at hf
      simp only [hf, Bool.false_eq_true, if_false]
      by_cases hne : next.length = 0
      · have : next = [] := List.length_eq_zero.mp hne
        subst this
        cases hst : st.container <;>
          simp [hideIfContainer, barVisible, hst]
      · have hnx : next ≠ [] := by
          intro h
          subst h
          exact hne rfl
        simp only [if_neg hne]
        cases hr : o.render with
        | none =>
          by_cases hit : getEditItems o next (some (buildContext next)) = []
          · have hq : (getEditItems o next (some (buildContext next))).length = 0 := by
              rw [hit]
              rfl
            cases hst : st.container <;>
              simp [getOrCreateEditBar, hideIfContainer, barVisible, hst, hq, hnx,
                hf, hit]
          · have hq : ¬((getEditItems o next (some (buildContext next))).length = 0) := by
              simpa using hit
            cases hst : st.container <;>
              simp [getOrCreateEditBar, hideIfContainer, barVisible, hst, hq, hnx,
                hf, hit]
        | some r =>
          cases hrc : r (buildContext next) with
          | none =>
            cases hst : st.container <;>
              simp [hideIfContainer, barVisible, hst, hrc, hnx, hf]
          | some content =>
            cases hst : st.container <;>
              simp [getOrCreateEditBar, barVisible, hst, hrc, hnx, hf]
  · intro o st target c hc htg
    unfold handleGeometryChanged
    rw [hc]
    have hmem : target ∈ st.selection := by
      simpa using htg
    simp [hmem, barVisible]
  · intro o st c hc hsel
    unfold handleHistoryChanged
    rw [hc]
    have : ¬(st.selection.length = 0) := by
      simpa using hsel
    simp [this, barVisible]

/-- Witness for C5 amended: the geometry and history re-show conclusions
applied at a concrete hidden container, hypotheses discharged concretely. -/
theorem c5_visibility_amended_witness :
    barVisible (handleGeometryChanged {}
        ⟨[⟨1, true, false, false, [], []⟩], some ⟨false, []⟩⟩
        ⟨1, true, false, false, [], []⟩).1 = true ∧
    barVisible (handleHistoryChanged {}
        ⟨[⟨1, true, false, false, [], []⟩], some ⟨false, []⟩⟩).1 = true :=
  ⟨c5_visibility_amended.2.1 {}
      ⟨[⟨1, true, false, false, [], []⟩], some ⟨false, []⟩⟩
      ⟨1, true, false, false, [], []⟩ ⟨false, []⟩ rfl (by decide),
   c5_visibility_amended.2.2 {}
      ⟨[⟨1, true, false, false, [], []⟩], some ⟨false, []⟩⟩
      ⟨false, []⟩ rfl (by decide)⟩

/-- Every side effect of cleanupContainerItems is an unmount. -/
theorem cleanup_acts_unmount {l : List EditItem} {a : BarAction}
    (h : a ∈ (cleanupContainerItems l).2) : ∃ w, a = BarAction.unmount w := by
  induction l with
  | nil => cases h
  | cons c rest ih =>
    simp only [cleanupContainerItems, List.mem_append] at h
    rcases h with h1 | h2
    · cases hc : c with
      | widget w b =>
        cases b <;> rw [hc] at h1 <;> simp [cleanupReactEditBar] at h1
        · exact ⟨w, h1⟩
      | _ => rw [hc] at h1; simp [cleanupReactEditBar] at h1
    · exact ih h2

/-- cleanupContainerItems unmounts every attached widget that still has a
cleanup hook. -/
theorem unmount_mem_cleanup {children : List EditItem} {w : Nat}
    (h : EditItem.widget w true ∈ children) :
    BarAction.unmount w ∈ (cleanupContainerItems children).2 := by
  induction children with
  | nil => cases h
  | cons c rest ih =>
    simp only [cleanupContainerItems, List.mem_append]
    rcases List.mem_cons.mp h with rfl | h2
    · left
      simp [cleanupReactEditBar]
    · right
      exact ih h2

/-- handleSelectionChanged, custom renderer returning content, container
present. -/
theorem hsc_eq_render_some (o : EditBarOptions) (st : BarState)
    (next : List Element) (r : EditBarRenderer) (content : EditItem)
    (c : ContainerState)
    (hf : filterRejects o next = false) (hne : ¬next.length = 0)
    (hr : o.render = some r) (hrc : r (buildContext next) = some content)
    (hst : st.container = some c) :
    handleSelectionChanged o st next =
      ({ selection := next, container := some ⟨true, [content]⟩ },
        (cleanupContainerItems c.children).2 ++
          [.attach [content], .place, .show]) := by
  simp [handleSelectionChanged, hf, hne, hr, hrc, hst, getOrCreateEditBar]

/-- handleSelectionChanged, custom renderer returning content, container
not yet created. -/
theorem hsc_eq_render_some_nocont (o : EditBarOptions) (st : BarState)
    (next : List Element) (r : EditBarRenderer) (content : EditItem)
    (hf : filterRejects o next = false) (hne : ¬next.length = 0)
    (hr : o.render = some r) (hrc : r (buildContext next) = some content)
    (hst : st.container = none) :
    handleSelectionChanged o st next =
      ({ selection := next, container := some ⟨true, [content]⟩ },
        [.createContainer, .attach [content], .place, .show]) := by
  simp [handleSelectionChanged, hf, hne, hr, hrc, hst, getOrCreateEditBar,
    cleanupContainerItems]

/-- handleSelectionChanged when the filter rejects the next selection. -/
theorem hsc_eq_filterRejects (o : EditBarOptions) (st : BarState)
    (next : List Element) (hf : filterRejects o next = true) :
    handleSelectionChanged o st next =
      hideIfContainer { st with selection := next } := by
  simp [handleSelectionChanged, hf]

/-- handleSelectionChanged on an empty next selection. -/
theorem hsc_eq_empty (o : EditBarOptions) (st : BarState)
    (hf : filterRejects o [] = false) :
    handleSelectionChanged o st [] =
      hideIfContainer { st with selection := [] } := by
  simp [handleSelectionChanged, hf]

/-- handleSelectionChanged when the custom renderer returns nothing. -/
theorem hsc_eq_render_none (o : EditBarOptions) (st : BarState)
    (next : List Element) (r : EditBarRenderer)
    (hf : filterRejects o next = false) (hne : ¬next.length = 0)
    (hr : o.render = some r) (hrc : r (buildContext next) = none) :
    handleSelectionChanged o st next =
      hideIfContainer { st with selection := next } := by
  simp [handleSelectionChanged, hf, hne, hr, hrc]

/-- handleSelectionChanged, item path, zero items, container present. -/
theorem hsc_eq_items_empty (o : EditBarOptions) (st : BarState)
    (next : List Element) (c : ContainerState)
    (hf : filterRejects o next = false) (hne : ¬next.length = 0)
    (hr : o.render = none)
    (hit : (getEditItems o next (some (buildContext next))).length = 0)
    (hst : st.container = some c) :
    handleSelectionChanged o st next =
      ({ selection := next, container := some ⟨false, c.children⟩ }, [.hide]) := by
  simp [handleSelectionChanged, hf, hne, hr, hit, hst, getOrCreateEditBar,
    hideIfContainer]

/-- handleSelectionChanged, item path, zero items, container not yet
created. -/
theorem hsc_eq_items_empty_nocont (o : EditBarOptions) (st : BarState)
    (next : List Element)
    (hf : filterRejects o next = false) (hne : ¬next.length = 0)
    (hr : o.render = none)
    (hit : (getEditItems o next (some (buildContext next))).length = 0)
    (hst : st.container = none) :
    handleSelectionChanged o st next =
      ({ selection := next, container := some ⟨false, []⟩ },
        [.createContainer, .hide]) := by
  simp [handleSelectionChanged, hf, hne, hr, hit, hst, getOrCreateEditBar,
    hideIfContainer]

/-- handleSelectionChanged, item path, non-empty items, container
present. -/
theorem hsc_eq_items (o : EditBarOptions) (st : BarState)
    (next : List Element) (c : ContainerState)
    (hf : filterRejects o next = false) (hne : ¬next.length = 0)
    (hr : o.render = none)
    (hit : ¬(getEditItems o next (some (buildContext next))).length = 0)
    (hst : st.container = some c) :
    handleSelectionChanged o st next =
      ({ selection := next,
         container := some ⟨true, getEditItems o next (some (buildContext next))⟩ },
        (cleanupContainerItems c.children).2 ++
          [.attach (getEditItems o next (some (buildContext next))), .place, .show]) := by
  simp [handleSelectionChanged, hf, hne, hr, hit, hst, getOrCreateEditBar]

/-- handleSelectionChanged, item path, non-empty items, container not yet
created. -/
theorem hsc_eq_items_nocont (o : EditBarOptions) (st : BarState)
    (next : List Element)
    (hf : filterRejects o next = false) (hne : ¬next.length = 0)
    (hr : o.render = none)
    (hit : ¬(getEditItems o next (some (buildContext next))).length = 0)
    (hst : st.container = none) :
    handleSelectionChanged o st next =
      ({ selection := next,
         container := some ⟨true, getEditItems o next (some (buildContext next))⟩ },
        [.createContainer,
         .attach (getEditItems o next (some (buildContext next))), .place, .show]) := by
  simp [handleSelectionChanged, hf, hne, hr, hit, hst, getOrCreateEditBar,
    cleanupContainerItems]

/-- C6 amended: on every selection-change re-render that attaches new
content, the previously rendered content is disposed first: the action
trace puts the unmount of every attached cleanup-bearing widget (and every
unmount whatsoever) strictly before the attach; but on every
selection-change that hides the toolbar (empty selection, rejecting
filter, null custom content, or an empty resolved item set) nothing is
disposed: no unmount and no attach occurs and the container keeps its
previous children, so hiding happens with previously rendered content
still attached and undisposed, contrary to the claimed
disposal-precedes-hiding discipline. -/
theorem c6_disposal_amended :
    (∀ (o : EditBarOptions) (st : BarState) (next : List Element)
        (items : List EditItem),
      BarAction.attach items ∈ (handleSelectionChanged o st next).2 →
      ∃ pre post,
        (handleSelectionChanged o st next).2 = pre ++ .attach items :: post ∧
        (∀ w, BarAction.unmount w ∈ (handleSelectionChanged o st next).2 →
          BarAction.unmount w ∈ pre) ∧
        (∀ c, st.container = some c →
          ∀ w, EditItem.widget w true ∈ c.children → BarAction.unmount w ∈ pre))
    ∧ (∀ (o : EditBarOptions) (st : BarState) (next : List Element),
        BarAction.hide ∈ (handleSelectionChanged o st next).2 →
        (∀ w, BarAction.unmount w ∉ (handleSelectionChanged o st next).2) ∧
        (∀ items, BarAction.attach items ∉ (handleSelectionChanged o st next).2) ∧
        (∀ c, st.container = some c →
          (handleSelectionChanged o st next).1.container = some ⟨false, c.children⟩)) := by
  constructor
  · intro o st next items hmem
    by_cases hf : filterRejects o next = true
    · rw [hsc_eq_filterRejects o st next hf] at hmem
      exfalso
      cases hst : st.container <;> simp [hideIfContainer, hst] at hmem
    · rw [Bool.not_eq_true] at hf
      by_cases hne : next.length = 0
      · have hnil : next = [] := List.length_eq_zero.mp hne
        subst hnil
        rw [hsc_eq_empty o st hf] at hmem
        exfalso
        cases hst : st.container <;> simp [hideIfContainer, hst] at hmem
      · cases hr : o.render with
        | some r =>
          cases hrc : r (buildContext next) with
          | none =>
            rw [hsc_eq_render_none o st next r hf hne hr hrc] at hmem
            exfalso
            cases hst : st.container <;> simp [hideIfContainer, hst] at hmem
          | some content =>
            cases hst : st.container with
            | none =>
              rw [hsc_eq_render_some_nocont o st next r content hf hne hr hrc hst]
                at hmem ⊢
              simp only [List.mem_cons, List.not_mem_nil, or_false, reduceCtorEq,
                false_or, BarAction.attach.injEq] at hmem
              subst hmem
              refine ⟨[.createContainer], [.place, .show], by simp, by simp, ?_⟩
              intro c hc
              cases hc
            | some c =>
              rw [hsc_eq_render_some o st next r content c hf hne hr hrc hst]
                at hmem ⊢
              have hitems : items = [content] := by
                simp only [List.mem_append, List.mem_cons, List.not_mem_nil,
                  or_false, reduceCtorEq, false_or, BarAction.attach.injEq] at hmem
                rcases hmem with h1 | h2
                · obtain ⟨w, hw⟩ := cleanup_acts_unmount h1
                  cases hw
                · exact h2
              subst hitems
              refine ⟨(cleanupContainerItems c.children).2, [.place, .show],
                by simp, ?_, ?_⟩
              · intro w hw
                simp only [List.mem_append, List.mem_cons, List.not_mem_nil,
                  or_false, reduceCtorEq, false_or] at hw
                tauto
              · intro c2 hc2 w hw
                obtain rfl : c = c2 := by
                  injection hc2
                exact unmount_mem_cleanup hw
        | none =>
          by_cases hit : (getEditItems o next (some (buildContext next))).length = 0
          · exfalso
            cases hst : st.container with
            | none =>
              rw [hsc_eq_items_empty_nocont o st next hf hne hr hit hst] at hmem
              simp at hmem
            | some c =>
              rw [hsc_eq_items_empty o st next c hf hne hr hit hst] at hmem
              simp at hmem
          · cases hst : st.container with
            | none =>
              rw [hsc_eq_items_nocont o st next hf hne hr hit hst] at hmem ⊢
              simp only [List.mem_cons, List.not_mem_nil, or_false, reduceCtorEq,
                false_or, BarAction.attach.injEq] at hmem
              subst hmem
              refine ⟨[.createContainer], [.place, .show], by simp, by simp, ?_⟩
              intro c hc
              cases hc
            | some c =>
              rw [hsc_eq_items o st next c hf hne hr hit hst] at hmem ⊢
              have hitems : items = getEditItems o next (some (buildContext next)) := by
                simp only [List.mem_append, List.mem_cons, List.not_mem_nil,
                  or_false, reduceCtorEq, false_or, BarAction.attach.injEq] at hmem
                rcases hmem with h1 | h2
                · obtain ⟨w, hw⟩ := cleanup_acts_unmount h1
                  cases hw
                · exact h2
              subst hitems
              refine ⟨(cleanupContainerItems c.children).2, [.place, .show],
                by simp, ?_, ?_⟩
              · intro w hw
                simp only [List.mem_append, List.mem_cons, List.not_mem_nil,
                  or_false, reduceCtorEq, false_or] at hw
                tauto
              · intro c2 hc2 w hw
                obtain rfl : c = c2 := by
                  injection hc2
                exact unmount_mem_cleanup hw
  · intro o st next hmem
    by_cases hf : filterRejects o next = true
    · rw [hsc_eq_filterRejects o st next hf] at hmem ⊢
      cases hst : st.container <;>
        simp [hideIfContainer, hst] at hmem ⊢
    · rw [Bool.not_eq_true] at hf
      by_cases hne : next.length = 0
      · have hnil : next = [] := List.length_eq_zero.mp hne
        subst hnil
        rw [hsc_eq_empty o st hf] at hmem ⊢
        cases hst : st.container <;>
          simp [hideIfContainer, hst] at hmem ⊢
      · cases hr : o.render with
        | some r =>
          cases hrc : r (buildContext next) with
          | none =>
            rw [hsc_eq_render_none o st next r hf hne hr hrc] at hmem ⊢
            cases hst : st.container <;>
              simp [hideIfContainer, hst] at hmem ⊢
          | some content =>
            exfalso
            cases hst : st.container with
            | none =>
              rw [hsc_eq_render_some_nocont o st next r content hf hne hr hrc hst]
                at hmem
              simp at hmem
            | some c =>
              rw [hsc_eq_render_some o st next r content c hf hne hr hrc hst] at hmem
              simp only [List.mem_append, List.mem_cons, List.not_mem_nil,
                or_false, reduceCtorEq, false_or, or_self] at hmem
              obtain ⟨w, hw⟩ := cleanup_acts_unmount hmem
              cases hw
        | none =>
          by_cases hit : (getEditItems o next (some (buildContext next))).length = 0
          · cases hst : st.container with
            | none =>
              rw [hsc_eq_items_empty_nocont o st next hf hne hr hit hst] at hmem ⊢
              refine ⟨by simp, by simp, ?_⟩
              intro c hc
              cases hc
            | some c =>
              rw [hsc_eq_items_empty o st next c hf hne hr hit hst] at hmem ⊢
              refine ⟨by simp, by simp, ?_⟩
              intro c2 hc2
              obtain rfl : c = c2 := by
                injection hc2
              rfl
          · exfalso
            cases hst : st.container with
            | none =>
              rw [hsc_eq_items_nocont o st next hf hne hr hit hst] at hmem
              simp at hmem
            | some c =>
              rw [hsc_eq_items o st next c hf hne hr hit hst] at hmem
              simp only [List.mem_append, List.mem_cons, List.not_mem_nil,
                or_false, reduceCtorEq, false_or, or_self] at hmem
              obtain ⟨w, hw⟩ := cleanup_acts_unmount hmem
              cases hw

/-- Counterexample to C6 as stated: a custom-rendered widget carrying a
React cleanup hook is attached; the next selection change (to the empty
selection) hides the container without disposing it — the container ends
hidden with the still-mounted widget attached, and the hiding step's
action trace is exactly one hide with no unmount preceding it. -/
theorem c6_disposal_counterexample :
    (runBar { render := some (fun _ => some (.widget 7 true)) } initialBarState
        [.selChange [⟨1, true, false, false, [], []⟩], .selChange []]).container
      = some ⟨false, [.widget 7 true]⟩ ∧
    (stepBar { render := some (fun _ => some (.widget 7 true)) }
        (stepBar { render := some (fun _ => some (.widget 7 true)) }
          initialBarState (.selChange [⟨1, true, false, false, [], []⟩])).1
        (.selChange [])).2 = [.hide] :=
  ⟨by decide, by decide⟩

/-- Witness for C6 amended: the dispose-before-attach conclusion applied
at a concrete re-render over a still-mounted widget, and the
hide-without-disposal conclusion applied at a concrete state whose
container holds a still-mounted widget. -/
theorem c6_disposal_amended_witness :
    (∃ pre post,
      (handleSelectionChanged {} ⟨[], some ⟨true, [.widget 7 true]⟩⟩
          [⟨1, true, false, false, [], []⟩]).2 =
        pre ++ .attach (getEditItems {} [⟨1, true, false, false, [], []⟩]
          (some (buildContext [⟨1, true, false, false, [], []⟩]))) :: post ∧
      (∀ w, BarAction.unmount w ∈
          (handleSelectionChanged {} ⟨[], some ⟨true, [.widget 7 true]⟩⟩
            [⟨1, true, false, false, [], []⟩]).2 →
        BarAction.unmount w ∈ pre) ∧
      (∀ c, (⟨[], some ⟨true, [.widget 7 true]⟩⟩ : BarState).container = some c →
        ∀ w, EditItem.widget w true ∈ c.children →
          BarAction.unmount w ∈ pre)) ∧
    (∀ w, BarAction.unmount w ∉
        (handleSelectionChanged {} ⟨[⟨1, true, false, false, [], []⟩],
          some ⟨true, [.widget 7 true]⟩⟩ []).2) ∧
    (∀ items, BarAction.attach items ∉
        (handleSelectionChanged {} ⟨[⟨1, true, false, false, [], []⟩],
          some ⟨true, [.widget 7 true]⟩⟩ []).2) ∧
    (∀ c, (⟨[⟨1, true, false, false, [], []⟩],
          some ⟨true, [.widget 7 true]⟩⟩ : BarState).container = some c →
        (handleSelectionChanged {} ⟨[⟨1, true, false, false, [], []⟩],
          some ⟨true, [.widget 7 true]⟩⟩ []).1.container
          = some ⟨false, c.children⟩) :=
  ⟨c6_disposal_amended.1 {} ⟨[], some ⟨true, [.widget 7 true]⟩⟩
      [⟨1, true, false, false, [], []⟩]
      (getEditItems {} [⟨1, true, false, false, [], []⟩]
        (some (buildContext [⟨1, true, false, false, [], []⟩]))) (by decide),
   c6_disposal_amended.2 {}
    ⟨[⟨1, true, false, false, [], []⟩], some ⟨true, [.widget 7 true]⟩⟩ []
    (by decide)⟩

/-- Identities of the three bound handler references the plugin keeps
(this.handleSelectionChanged, this.handleGeometryChanged,
this.handleHistoryChanged). -/
def selListenerId : Nat := 0

def geomListenerId : Nat := 1

def histListenerId : Nat := 2

/-- An emitter registry: the subscribed (event, listener) pairs in
subscription order. -/
abbrev ListenerReg := List (String × Nat)

/-- init of the EditBar plugin: subscribe the three handlers on the
emitter. -/
def initEditBarListeners (reg : ListenerReg) : ListenerReg :=
  reg ++ [("selection:change", selListenerId),
          ("selection:geometrychange", geomListenerId),
          ("history:change", histListenerId)]

/-- emitter.off: unsubscribe by exact (event, listener) identity. -/
def offListenerReg (reg : ListenerReg) (event : String) (lid : Nat) : ListenerReg :=
  reg.filter (fun p => !(p.1 == event && p.2 == lid))

/-- destroy of the EditBar plugin: unsubscribe the three handlers, then
remove the container node with whatever children are attached at that
moment; no cleanup of React content happens on this path. -/
def destroyEditBar (reg : ListenerReg) (st : BarState) :
    ListenerReg × BarState × List BarAction :=
  let reg1 := offListenerReg reg "selection:change" selListenerId
  let reg2 := offListenerReg reg1 "selection:geometrychange" geomListenerId
  let reg3 := offListenerReg reg2 "history:change" histListenerId
  match st.container with
  | none => (reg3, st,
      [.offListener "selection:change" selListenerId,
       .offListener "selection:geometrychange" geomListenerId,
       .offListener "history:change" histListenerId])
  | some c => (reg3, { st with container := none },
      [.offListener "selection:change" selListenerId,
       .offListener "selection:geometrychange" geomListenerId,
       .offListener "history:change" histListenerId,
       .removeContainer c.children])

/-- Whether an action is the running of a React root's cleanup hook. -/
def isUnmountAction : BarAction → Bool
  | .unmount _ => true
  | _ => false

/-- C8, evaluated at the failing input: after init and one selection
change that mounts a custom React-adapter widget (cleanup hook attached),
destroy does unsubscribe all three listeners by identity (the registry
returns to empty), but it removes the container while the widget is still
attached with its cleanup hook intact, and its action trace contains no
unmount at all — the externally-owned React root is never disposed,
contrary to the claim, to the adapter's documented contract (cleanup must
run before the element is removed) and to the plugin lifecycle contract. -/
theorem c8_destroy_code_evaluation :
    (destroyEditBar (initEditBarListeners [])
        (handleSelectionChanged { render := some (fun _ => some (.widget 7 true)) }
          initialBarState [⟨1, true, false, false, [], []⟩]).1).1 = [] ∧
    (destroyEditBar (initEditBarListeners [])
        (handleSelectionChanged { render := some (fun _ => some (.widget 7 true)) }
          initialBarState [⟨1, true, false, false, [], []⟩]).1).2.2
      = [.offListener "selection:change" selListenerId,
         .offListener "selection:geometrychange" geomListenerId,
         .offListener "history:change" histListenerId,
         .removeContainer [.widget 7 true]] ∧
    ((destroyEditBar (initEditBarListeners [])
        (handleSelectionChanged { render := some (fun _ => some (.widget 7 true)) }
          initialBarState [⟨1, true, false, false, [], []⟩]).1).2.2).all
        (fun a => !(isUnmountAction a)) = true :=
  ⟨by decide, by decide, by decide⟩

/-- The op field of a ChangeRecord. -/
inductive ChangeOp where
  | add
  | remove
  | update
deriving DecidableEq, Repr

/-- A ChangeRecord as carried by options:change payloads. -/
structure ChangeRecord where
  op : ChangeOp
  path : String
  value : AttrValue
  previousValue : Option AttrValue := none
deriving DecidableEq, Repr

/-- The opaque options object returned by getOptions, passed through the
public change event unmodified. -/
structure OptionsView where
  token : Nat
deriving DecidableEq, Repr

/-- The selection:change payload. -/
structure SelectionChangePayload where
  previous : List Element
  next : List Element
  added : List Element
  removed : List Element
deriving DecidableEq, Repr

/-- The action field of history:change payloads. -/
inductive HistoryAction where
  | execute
  | undo
  | redo
deriving DecidableEq, Repr

/-- The internal bus emissions the bridge of setupEditorEventBridge
listens to. -/
inductive InternalEvent where
  | optionsChange (changes : List ChangeRecord)
  | selectionChange (payload : SelectionChangePayload)
  | historyChange (action : HistoryAction)
  | geometryChange (target : Element)
deriving Repr

/-- changeType of the public geometryChange event. -/
inductive GeometryChangeType where
  | move
  | resize
deriving DecidableEq, Repr

/-- The public events the bridge re-emits for external consumers. -/
inductive PublicEvent where
  | change (operation : ChangeOp) (path : String) (value : AttrValue)
      (options : OptionsView)
  | selectionChange (selection added removed : List Element)
  | historyChange (action : HistoryAction) (canUndo canRedo : Bool)
      (historySize : Nat)
  | geometryChange (target : Element) (changeType : GeometryChangeType)
deriving DecidableEq, Repr

/-- What the editor answers at emission time (this.editor's canUndo,
canRedo and getHistorySize queries). -/
structure EditorView where
  canUndo : Bool
  canRedo : Bool
  historySize : Nat
deriving DecidableEq, Repr

/-- The environment the bridge listeners close over: the editor (absent
when this.editor is undefined, in which case the JS optional chaining
falls back to false / false / 0), the current getOptions() snapshot, and
which of the on* callback props the options provide. -/
structure BridgeEnv where
  editor : Option EditorView
  optionsView : OptionsView
  onChange : Bool
  onSelectionChange : Bool
  onHistoryChange : Bool
  onGeometryChange : Bool
deriving DecidableEq, Repr

/-- The four listeners installed by setupEditorEventBridge, as a function
from one internal emission to the public events emitted and the payloads
delivered to the corresponding callback prop (when provided). -/
def bridgeEmit (env : BridgeEnv) : InternalEvent → List PublicEvent × List PublicEvent
  | .optionsChange changes =>
    match changes with
    | [] => ([], [])
    | change :: _ =>
      let publicEvent := PublicEvent.change change.op change.path change.value
        env.optionsView
      ([publicEvent], if env.onChange then [publicEvent] else [])
  | .selectionChange payload =>
    let publicEvent := PublicEvent.selectionChange payload.next payload.added
      payload.removed
    ([publicEvent], if env.onSelectionChange then [publicEvent] else [])
  | .historyChange action =>
    let publicEvent := PublicEvent.historyChange action
      ((env.editor.map EditorView.canUndo).getD false)
      ((env.editor.map EditorView.canRedo).getD false)
      ((env.editor.map EditorView.historySize).getD 0)
    ([publicEvent], if env.onHistoryChange then [publicEvent] else [])
  | .geometryChange target =>
    let publicEvent := PublicEvent.geometryChange target .move
    ([publicEvent], if env.onGeometryChange then [publicEvent] else [])

/-- C7: with the editor active, every internal history:change emission is
re-emitted as one public historyChange event whose action equals the
internal action, enriched with exactly the canUndo, canRedo and
historySize the editor answers at emission time; and the other internal
emissions are renamed for external consumers: selection:change becomes
selectionChange (carrying next, added, removed), selection:geometrychange
becomes geometryChange (carrying the target), and options:change carrying
at least one record becomes change. -/
theorem c7_event_bridge_renaming :
    (∀ (env : BridgeEnv) (ed : EditorView) (action : HistoryAction),
      env.editor = some ed →
      (bridgeEmit env (.historyChange action)).1 =
        [.historyChange action ed.canUndo ed.canRedo ed.historySize])
    ∧ (∀ (env : BridgeEnv) (payload : SelectionChangePayload),
        (bridgeEmit env (.selectionChange payload)).1 =
          [.selectionChange payload.next payload.added payload.removed])
    ∧ (∀ (env : BridgeEnv) (target : Element),
        (bridgeEmit env (.geometryChange target)).1 =
          [.geometryChange target .move])
    ∧ (∀ (env : BridgeEnv) (change : ChangeRecord) (rest : List ChangeRecord),
        (bridgeEmit env (.optionsChange (change :: rest))).1 =
          [.change change.op change.path change.value env.optionsView]) := by
  refine ⟨?_, ?_, ?_, ?_⟩
  · intro env ed action hed
    simp [bridgeEmit, hed]
  · intro env payload
    rfl
  · intro env target
    rfl
  · intro env change rest
    rfl

/-- Witness for C7: the history enrichment applied with a concrete active
editor. -/
theorem c7_event_bridge_renaming_witness :
    (bridgeEmit ⟨some ⟨true, false, 3⟩, ⟨0⟩, false, false, false, false⟩
        (.historyChange .undo)).1 =
      [.historyChange .undo true false 3] :=
  c7_event_bridge_renaming.1
    ⟨some ⟨true, false, 3⟩, ⟨0⟩, false, false, false, false⟩
    ⟨true, false, 3⟩ .undo rfl

/-- C9: an options:change emission with at least one record produces
exactly one public change event carrying the first record's op, path and
value together with the current options snapshot — later records in the
same emission contribute nothing — and the same payload goes to the
onChange callback exactly when the option provides one; an options:change
emission with an empty changes array produces no public event and invokes
no callback. -/
theorem c9_options_change_first_record :
    (∀ (env : BridgeEnv) (change : ChangeRecord) (rest : List ChangeRecord),
      bridgeEmit env (.optionsChange (change :: rest)) =
        ([.change change.op change.path change.value env.optionsView],
         if env.onChange then
           [.change change.op change.path change.value env.optionsView]
         else []))
    ∧ (∀ env : BridgeEnv, bridgeEmit env (.optionsChange []) = ([], [])) := by
  exact ⟨fun env change rest => rfl, fun env => rfl⟩

/-- The options snapshot of the Infographic runtime, as far as
performRender reads it: the editable flag plus an opaque identity. -/
structure OptionsModel where
  token : Nat
  editable : Bool
deriving DecidableEq, Repr

/-- The parsed options, as far as performRender reads them: whether
isCompleteParsedInfographicOptions accepts them (the predicate itself
lives outside src and is reported by the external parse pipeline). -/
structure ParsedOptionsView where
  complete : Bool
deriving DecidableEq, Repr

/-- Events emitted on the runtime emitter during rendering. -/
inductive RuntimeEvent where
  | errorEvent (message : String)
  | renderedEvent (node : Nat)
deriving DecidableEq, Repr

/-- The render-relevant state of an Infographic instance: the rendered
flag, the current SVG node, the editor instance, the host container's
children (node identities), the options and parsed options, and the log
of emitted events. -/
structure InfographicState where
  rendered : Bool
  node : Option Nat
  editor : Option Nat
  containerChildren : List Nat
  options : OptionsModel
  parsedOptions : ParsedOptionsView
  emitted : List RuntimeEvent
deriving DecidableEq, Repr

/-- setOptions with an options-object input (parseSyntaxOptions then
yields no syntax errors or warnings): the external parse and merge
pipeline produces the new options and parsed options, which the model
receives as its inputs. -/
def setOptionsModel (st : InfographicState) (newOptions : OptionsModel)
    (newParsed : ParsedOptionsView) : InfographicState :=
  { st with options := newOptions, parsedOptions := newParsed }

/-- performRender from the Infographic runtime: bail out with an error
event when the parsed options are incomplete; otherwise render a fresh
node, replace the container children, recreate the editor when editable,
set the rendered flag and emit the rendered event. freshNode and
freshEditor stand for the identities the external Renderer and Editor
constructors produce. -/
def performRender (st : InfographicState) (freshNode freshEditor : Nat) :
    InfographicState :=
  if st.parsedOptions.complete = false then
    { st with emitted := st.emitted ++ [.errorEvent "Incomplete options"] }
  else
    { st with
        node := some freshNode
        containerChildren := [freshNode]
        editor := if st.options.editable then some freshEditor else none
        rendered := true
        emitted := st.emitted ++ [.renderedEvent freshNode] }

/-- render(options): setOptions in replace mode, then performRender. -/
def renderModel (st : InfographicState) (newOptions : OptionsModel)
    (newParsed : ParsedOptionsView) (freshNode freshEditor : Nat) :
    InfographicState :=
  performRender (setOptionsModel st newOptions newParsed) freshNode freshEditor

/-- update(options): setOptions in merge mode (the merged outcome is again
produced by the external pipeline), then performRender. -/
def updateModel (st : InfographicState) (newOptions : OptionsModel)
    (newParsed : ParsedOptionsView) (freshNode freshEditor : Nat) :
    InfographicState :=
  performRender (setOptionsModel st newOptions newParsed) freshNode freshEditor

/-- C10: when a render() or update() call ends up with incomplete parsed
options, the instance emits exactly one error event with message
Incomplete options and returns without rendering: the rendered flag, the
node, the editor and the host container's children are all left exactly as
before the call. -/
theorem c10_incomplete_options_guard :
    ∀ (st : InfographicState) (newOptions : OptionsModel)
      (newParsed : ParsedOptionsView) (freshNode freshEditor : Nat),
      newParsed.complete = false →
      (renderModel st newOptions newParsed freshNode freshEditor).rendered
          = st.rendered ∧
      (renderModel st newOptions newParsed freshNode freshEditor).node = st.node ∧
      (renderModel st newOptions newParsed freshNode freshEditor).editor
          = st.editor ∧
      (renderModel st newOptions newParsed freshNode freshEditor).containerChildren
          = st.containerChildren ∧
      (renderModel st newOptions newParsed freshNode freshEditor).emitted
          = st.emitted ++ [.errorEvent "Incomplete options"] ∧
      updateModel st newOptions newParsed freshNode freshEditor
          = renderModel st newOptions newParsed freshNode freshEditor := by
  intro st newOptions newParsed freshNode freshEditor hc
  simp [renderModel, updateModel, performRender, setOptionsModel, hc]

/-- Witness for C10: the guard applied at a concrete incomplete state. -/
theorem c10_incomplete_options_guard_witness :
    (⟨false⟩ : ParsedOptionsView).complete = false ∧
    (renderModel ⟨true, some 4, some 9, [4], ⟨0, true⟩, ⟨true⟩, []⟩
        ⟨1, true⟩ ⟨false⟩ 5 10).rendered = true ∧
    (renderModel ⟨true, some 4, some 9, [4], ⟨0, true⟩, ⟨true⟩, []⟩
        ⟨1, true⟩ ⟨false⟩ 5 10).node = some 4 ∧
    (renderModel ⟨true, some 4, some 9, [4], ⟨0, true⟩, ⟨true⟩, []⟩
        ⟨1, true⟩ ⟨false⟩ 5 10).emitted = [.errorEvent "Incomplete options"] :=
  ⟨rfl,
   (c10_incomplete_options_guard ⟨true, some 4, some 9, [4], ⟨0, true⟩, ⟨true⟩, []⟩
      ⟨1, true⟩ ⟨false⟩ 5 10 rfl).1,
   (c10_incomplete_options_guard ⟨true, some 4, some 9, [4], ⟨0, true⟩, ⟨true⟩, []⟩
      ⟨1, true⟩ ⟨false⟩ 5 10 rfl).2.1,
   (c10_incomplete_options_guard ⟨true, some 4, some 9, [4], ⟨0, true⟩, ⟨true⟩, []⟩
      ⟨1, true⟩ ⟨false⟩ 5 10 rfl).2.2.2.2.1⟩

/-- Witness for C2: the short-circuit conclusion applied to a concrete
prefix that observes all three capabilities, hypotheses discharged
concretely. -/
theorem c2_getSelectionType_classification_witness :
    probeLoop ⟨false, false, false⟩
        ([⟨1, true, false, false, [], []⟩, ⟨2, false, true, false, [], []⟩,
          ⟨3, false, false, true, [], []⟩] ++ [⟨4, true, false, false, [], []⟩])
      = probeLoop ⟨false, false, false⟩
          [⟨1, true, false, false, [], []⟩, ⟨2, false, true, false, [], []⟩,
           ⟨3, false, false, true, [], []⟩] :=
  c2_getSelectionType_classification.2.1
    [⟨1, true, false, false, [], []⟩, ⟨2, false, true, false, [], []⟩,
     ⟨3, false, false, true, [], []⟩]
    [⟨4, true, false, false, [], []⟩] ⟨false, false, false⟩
    (by decide) (by decide) (by decide)
